import Mathlib

attribute [local semireducible] Rat.add Rat.sub Rat.mul Rat.inv

/-!
Verification of the causal-effect estimation engine of this repository
(src/backend/causal_engine.py, src/validation.py, src/compute_features.py,
src/backend/config.py) against its natural-language specification.

The dataframe pipeline is shallowly embedded as pure functions over lists.
Floating-point columns are modelled as rationals; the IEEE special values
NaN and the two infinities, which the source manipulates explicitly
(is_infinite, fill_nan, division by zero), are modelled by a dedicated
inductive type where they matter (the rolling-difficulty confounder and
the z-score stage).
-/

/-- Floor of a rational number, computed with flooring integer division.
Used to model the rounding-to-integer performed by the dataframe engine. -/
def rat_floor (q : ℚ) : ℤ := q.num.fdiv q.den

/-- Rounding of a rational to the nearest integer, halves away from zero.
This is the semantics of the round(0) expression of the source dataframe
engine (Rust f64 round: nearest integer, ties away from zero). -/
def round_half_away (q : ℚ) : ℤ :=
  if 0 ≤ q then rat_floor (q + 1/2) else - rat_floor (-q + 1/2)

/-- Mean of a list of rationals (sum divided by length), the semantics of
the mean aggregation of the dataframe engine on a non-empty group. -/
def list_mean (xs : List ℚ) : ℚ := xs.sum / (xs.length : ℚ)

/-- Value of a floating-point column cell that is never null: either a
finite value (modelled as a rational), NaN, or a signed infinity. -/
inductive FVal where
  | val (q : ℚ)
  | nan
  | posInf
  | negInf
deriving DecidableEq

/-- Model of the post-processing of the rolling average solved difficulty
in src/compute_features.py lines 74-78: the column is
(temp_roll_whook_sum / roll_solve_cnt_20).fill_null(0.0).
A null numerator or denominator makes the quotient null, and fill_null
replaces it by 0.  A zero denominator with a nonzero numerator gives a
signed infinity and a zero numerator gives NaN (IEEE float division);
fill_null leaves both in place. -/
def roll_ok_diff (temp_roll_whook_sum : Option ℚ) (roll_solve_cnt : Option ℚ) : FVal :=
  match temp_roll_whook_sum, roll_solve_cnt with
  | none, _ => .val 0
  | some _, none => .val 0
  | some t, some c =>
    if c = 0 then (if t = 0 then .nan else if 0 < t then .posInf else .negInf)
    else .val (t / c)

/-- Rating bucket of src/backend/causal_engine.py line 39:
(rating_at_submission / 100).round(0) cast to integer. -/
def bin_rating (x : ℚ) : ℤ := round_half_away (x / 100)

/-- Accuracy bucket of src/backend/causal_engine.py line 40:
(roll_acc_20 * 10).round(0) cast to integer. -/
def bin_acc (x : ℚ) : ℤ := round_half_away (x * 10)

/-- Coercion applied to the difficulty confounder by
src/backend/causal_engine.py lines 42-44: when(is_infinite).then(0.0)
.otherwise(fill_nan(0.0)).  Infinities and NaN become 0; finite values
pass through. -/
def coerce_diff : FVal → ℚ
  | .posInf => 0
  | .negInf => 0
  | .nan => 0
  | .val q => q

/-- Difficulty bucket of src/backend/causal_engine.py lines 41-46: the
coerced confounder divided by 200, rounded, cast to integer. -/
def bin_diff (v : FVal) : ℤ := round_half_away (coerce_diff v / 200)

/-- Stratum key (bin_rating, bin_acc, bin_diff) assigned by the forward
pipeline, src/backend/causal_engine.py lines 38-47. -/
def stratum_key (r a : ℚ) (v : FVal) : ℤ × ℤ × ℤ :=
  (bin_rating r, bin_acc a, bin_diff v)

/-- Rating bucket of the placebo pipeline, src/validation.py line 32. -/
def placebo_bin_rating (x : ℚ) : ℤ := round_half_away (x / 100)

/-- Accuracy bucket of the placebo pipeline, src/validation.py line 33. -/
def placebo_bin_acc (x : ℚ) : ℤ := round_half_away (x * 10)

/-- Coercion of the difficulty confounder in the placebo pipeline,
src/validation.py lines 35-37. -/
def placebo_coerce_diff : FVal → ℚ
  | .posInf => 0
  | .negInf => 0
  | .nan => 0
  | .val q => q

/-- Difficulty bucket of the placebo pipeline, src/validation.py
lines 34-39. -/
def placebo_bin_diff (v : FVal) : ℤ := round_half_away (placebo_coerce_diff v / 200)

/-- Stratum key assigned by the placebo pipeline, src/validation.py
lines 31-40. -/
def placebo_stratum_key (r a : ℚ) (v : FVal) : ℤ × ℤ × ℤ :=
  (placebo_bin_rating r, placebo_bin_acc a, placebo_bin_diff v)

/-- C8: an event whose rolling average solved-difficulty confounder is
missing (null, coerced to 0 by fill_null in the upstream feature stage
before it ever reaches the bucketizer), NaN, or a signed infinity is
assigned difficulty bucket 0, while its rating and accuracy buckets are
computed unchanged; the event is kept, not dropped. -/
theorem bucketizer_degenerate_diff_is_bucket_zero :
    (∀ (cnt : Option ℚ) (r a : ℚ),
        stratum_key r a (roll_ok_diff none cnt) = (bin_rating r, bin_acc a, 0))
    ∧ (∀ r a : ℚ, stratum_key r a FVal.nan = (bin_rating r, bin_acc a, 0))
    ∧ (∀ r a : ℚ, stratum_key r a FVal.posInf = (bin_rating r, bin_acc a, 0))
    ∧ (∀ r a : ℚ, stratum_key r a FVal.negInf = (bin_rating r, bin_acc a, 0)) := by
  have h0 : bin_diff (FVal.val 0) = 0 := by decide
  have hn : bin_diff FVal.nan = 0 := by decide
  have hp : bin_diff FVal.posInf = 0 := by decide
  have hm : bin_diff FVal.negInf = 0 := by decide
  refine ⟨fun cnt r a => ?_, fun r a => ?_, fun r a => ?_, fun r a => ?_⟩
  · show (bin_rating r, bin_acc a, bin_diff (roll_ok_diff none cnt)) = _
    rw [show roll_ok_diff none cnt = FVal.val 0 from rfl, h0]
  · show (bin_rating r, bin_acc a, bin_diff FVal.nan) = _
    rw [hn]
  · show (bin_rating r, bin_acc a, bin_diff FVal.posInf) = _
    rw [hp]
  · show (bin_rating r, bin_acc a, bin_diff FVal.negInf) = _
    rw [hm]

/-- One row of the per-event feature panel consumed by the causal engine
(the user_features parquet file): user handle, timestamp, task id, verdict
and the confounder columns.  The rolling accuracy is non-null on every
surviving row (the feature stage drops warm-up rows); the rolling average
solved difficulty can carry IEEE special values, hence FVal. -/
structure Event where
  handle : String
  time : ℤ
  id_of_submission_task : String
  verdict : String
  rating_at_submission : ℚ
  roll_acc_20 : ℚ
  roll_ok_diff_20 : FVal
deriving DecidableEq

/-- One row of the frame built by src/backend/causal_engine.py lines
15-47: the event columns plus future_rating_20, rating_gain_20,
improved_20 and the three stratum buckets. -/
structure SRow where
  handle : String
  time : ℤ
  id_of_submission_task : String
  verdict : String
  rating_at_submission : ℚ
  roll_acc_20 : ℚ
  roll_ok_diff_20 : FVal
  future_rating_20 : ℚ
  rating_gain_20 : ℚ
  improved_20 : ℕ
  bin_rating : ℤ
  bin_acc : ℤ
  bin_diff : ℤ
deriving DecidableEq

/-- Builds the derived row for an event e whose 20-submissions-later
successor (same user) is e20: future_rating_20 is the successor rating,
rating_gain_20 the difference, improved_20 the 0/1 indicator of a
positive gain, and the buckets come from the event confounders. -/
def make_srow (e e20 : Event) : SRow :=
  { handle := e.handle, time := e.time,
    id_of_submission_task := e.id_of_submission_task, verdict := e.verdict,
    rating_at_submission := e.rating_at_submission,
    roll_acc_20 := e.roll_acc_20, roll_ok_diff_20 := e.roll_ok_diff_20,
    future_rating_20 := e20.rating_at_submission,
    rating_gain_20 := e20.rating_at_submission - e.rating_at_submission,
    improved_20 := if 0 < e20.rating_at_submission - e.rating_at_submission then 1 else 0,
    bin_rating := bin_rating e.rating_at_submission,
    bin_acc := bin_acc e.roll_acc_20,
    bin_diff := bin_diff e.roll_ok_diff_20 }

/-- Events of one user, sorted by timestamp.  Models the global sort by
(handle, time) of src/backend/causal_engine.py line 15 restricted to one
partition of the subsequent over(handle) window. -/
def sorted_user_events (es : List Event) (h : String) : List Event :=
  List.insertionSort (fun a b => a.time ≤ b.time) (es.filter (fun e => e.handle = h))

/-- Derived rows of one user: shift(-20) over the handle partition pairs
row i with row i+20; rows with no successor (the last 20 of the user)
produce a null gain and are removed by the is_not_null filter of
src/backend/causal_engine.py line 30, so exactly the zipped pairs
survive. -/
def user_outcome_rows (es : List Event) (h : String) : List SRow :=
  (List.zip (sorted_user_events es h) ((sorted_user_events es h).drop 20)).map
    (fun p => make_srow p.1 p.2)

/-- All derived rows of the panel (src/backend/causal_engine.py lines
15-47): the concatenation of each user partition's derived rows. -/
def outcome_rows (es : List Event) : List SRow :=
  ((es.map (fun e => e.handle)).dedup).flatMap (user_outcome_rows es)

/-- Rows over which the treatment aggregation of
src/backend/causal_engine.py lines 71-79 computes the statistics of one
(task, stratum) group: the group_by collects every derived row whose task
id and bucket triple match, with no condition on the verdict. -/
def treatment_group (es : List Event) (p : String) (k : ℤ × ℤ × ℤ) : List SRow :=
  (outcome_rows es).filter
    (fun r => r.id_of_submission_task = p ∧ (r.bin_rating, r.bin_acc, r.bin_diff) = k)

/-- C9: bucketization is a pure function of the confounder values, and
the placebo pipeline (src/validation.py lines 31-40) assigns every event
exactly the same stratum key as the forward pipeline
(src/backend/causal_engine.py lines 38-47). -/
theorem placebo_stratum_key_eq_forward :
    ∀ (r a : ℚ) (v : FVal), placebo_stratum_key r a v = stratum_key r a v := by
  intro r a v
  cases v <;> rfl

/-- One row of the treatment_stats frame of src/backend/causal_engine.py
lines 71-79: per (task, stratum) mean gain, sample standard deviation of
the gain, count, and mean improvement indicator. -/
structure TStat where
  id_of_submission_task : String
  key : ℤ × ℤ × ℤ
  treated_gain : ℚ
  treated_std : ℚ
  treated_count : ℕ
  treated_improve_prob : ℚ
deriving DecidableEq

/-- One row of the baseline_stats frame of src/backend/causal_engine.py
lines 55-63: per stratum mean gain, sample standard deviation, count,
and mean improvement indicator over all events of the stratum. -/
structure BStat where
  key : ℤ × ℤ × ℤ
  baseline_gain : ℚ
  baseline_std : ℚ
  baseline_count : ℕ
  baseline_improve_prob : ℚ
deriving DecidableEq

/-- One row of the effect_df frame after the with_columns of
src/backend/causal_engine.py lines 97-111: the joined treatment and
baseline columns plus uplift, bucket_variance and probability_uplift. -/
structure ERec where
  id_of_submission_task : String
  key : ℤ × ℤ × ℤ
  treated_gain : ℚ
  treated_std : ℚ
  treated_count : ℕ
  treated_improve_prob : ℚ
  baseline_gain : ℚ
  baseline_std : ℚ
  baseline_count : ℕ
  baseline_improve_prob : ℚ
  uplift : ℚ
  bucket_variance : ℚ
  probability_uplift : ℚ
deriving DecidableEq

/-- Row produced by joining a treatment row with a baseline row of the
same stratum, with the derived columns of src/backend/causal_engine.py
lines 97-111: uplift is treated_gain - baseline_gain, bucket_variance is
treated_std^2/treated_count + baseline_std^2/baseline_count, and
probability_uplift is the difference of the improvement rates. -/
def make_effect (t : TStat) (b : BStat) : ERec :=
  { id_of_submission_task := t.id_of_submission_task, key := t.key,
    treated_gain := t.treated_gain, treated_std := t.treated_std,
    treated_count := t.treated_count, treated_improve_prob := t.treated_improve_prob,
    baseline_gain := b.baseline_gain, baseline_std := b.baseline_std,
    baseline_count := b.baseline_count, baseline_improve_prob := b.baseline_improve_prob,
    uplift := t.treated_gain - b.baseline_gain,
    bucket_variance := t.treated_std ^ 2 / (t.treated_count : ℚ)
      + b.baseline_std ^ 2 / (b.baseline_count : ℚ),
    probability_uplift := t.treated_improve_prob - b.baseline_improve_prob }

/-- The effect_df frame of src/backend/causal_engine.py lines 82-106
built from the treatment and baseline statistics: the treatment rows are
pre-filtered to treated_count at least 10 (line 82), the baseline rows to
baseline_count at least min_samples (lines 65-67), the two sides are
inner-joined on the stratum key (lines 86-90), the joined rows are
re-filtered to both counts at least min_samples (lines 92-95), and rows
with an uplift magnitude above 300 are dropped (lines 104-106). -/
def effect_df (min_samples : ℕ) (ts : List TStat) (bs : List BStat) : List ERec :=
  ((((ts.filter (fun t => 10 ≤ t.treated_count)).flatMap
      (fun t => ((bs.filter (fun b => min_samples ≤ b.baseline_count)).filter
          (fun b => b.key = t.key)).map (fun b => make_effect t b)))
    |>.filter (fun r => min_samples ≤ r.treated_count ∧ min_samples ≤ r.baseline_count))
    |>.filter (fun r => |r.uplift| ≤ 300))

/-- Rows of effect_df belonging to one task. -/
def rows_for (rs : List ERec) (p : String) : List ERec :=
  rs.filter (fun r => r.id_of_submission_task = p)

/-- The total_treated_samples window column of
src/backend/causal_engine.py lines 125-127: the sum of treated_count
over the surviving strata of the task. -/
def total_treated_samples (rs : List ERec) (p : String) : ℕ :=
  ((rows_for rs p).map (fun r => r.treated_count)).sum

/-- The weight column of src/backend/causal_engine.py lines 130-132:
treated_count of the stratum divided by the task total. -/
def weight (rs : List ERec) (p : String) (r : ERec) : ℚ :=
  (r.treated_count : ℚ) / (total_treated_samples rs p : ℚ)

/-- One row of the final_effects frame of src/backend/causal_engine.py
lines 134-149. -/
structure FinalEffect where
  id_of_submission_task : String
  att_score : ℚ
  att_variance : ℚ
  total_treated_samples : ℕ
  avg_rating_level : ℚ
  att_probability_uplift : ℚ
deriving DecidableEq

/-- The aggregation of src/backend/causal_engine.py lines 134-149 for one
task: att_score is the weight-weighted sum of uplifts, att_variance the
sum of squared weights times bucket variances, total_treated_samples the
first (constant) value of the window column, avg_rating_level the mean
rating bucket, and att_probability_uplift the treated-count-weighted mean
of the probability uplifts. -/
def final_for (rs : List ERec) (p : String) : FinalEffect :=
  { id_of_submission_task := p,
    att_score := ((rows_for rs p).map (fun r => weight rs p r * r.uplift)).sum,
    att_variance := ((rows_for rs p).map (fun r => weight rs p r ^ 2 * r.bucket_variance)).sum,
    total_treated_samples := total_treated_samples rs p,
    avg_rating_level := list_mean ((rows_for rs p).map (fun r => (r.key.1 : ℚ))),
    att_probability_uplift :=
      ((rows_for rs p).map (fun r => r.probability_uplift * (r.treated_count : ℚ))).sum
        / ((rows_for rs p).map (fun r => (r.treated_count : ℚ))).sum }

/-- The final_effects frame: one aggregated row per task occurring in
effect_df (the group_by of src/backend/causal_engine.py line 135 emits
exactly the task ids present in its input). -/
def final_effects (rs : List ERec) : List FinalEffect :=
  ((rs.map (fun r => r.id_of_submission_task)).dedup).map (final_for rs)

/-- Significance threshold P_VALUE_THRESHOLD of src/backend/config.py
line 47. -/
def P_VALUE_THRESHOLD : ℚ := 1/100

/-- Value of a float column cell in the significance stage of
src/backend/causal_engine.py lines 172-191, where division by a zero
standard error makes the IEEE special values reachable. -/
inductive RFloat where
  | val (x : ℝ)
  | posInf
  | negInf
  | nan

/-- The att_std_err column of src/backend/causal_engine.py lines
173-175: the square root of att_variance. -/
noncomputable def att_std_err (f : FinalEffect) : ℝ :=
  Real.sqrt ((f.att_variance : ℝ))

/-- The z_score column of src/backend/causal_engine.py lines 178-180,
att_score divided by att_std_err with IEEE float semantics: when
att_variance is 0 the standard error is 0 and the quotient is a signed
infinity for a nonzero att_score and NaN for a zero one; a negative
att_variance (never produced) would give a NaN standard error and a NaN
quotient; otherwise the quotient is finite. -/
noncomputable def z_score (f : FinalEffect) : RFloat :=
  if f.att_variance < 0 then .nan
  else if f.att_variance = 0 then
    (if 0 < f.att_score then .posInf else if f.att_score < 0 then .negInf else .nan)
  else .val ((f.att_score : ℝ) / att_std_err f)

/-- The p_value column of src/backend/causal_engine.py lines 186-191:
2 * (1 - norm_cdf |z|), where norm_cdf is the standard normal cumulative
distribution function, an external numerical primitive modelled here by
the function argument on finite inputs; at an infinite z the library
primitive returns norm_cdf(+infinity) = 1 exactly, giving p = 0, and a
NaN z propagates to a NaN p. -/
noncomputable def p_value (norm_cdf : ℝ → ℝ) (f : FinalEffect) : RFloat :=
  match z_score f with
  | .val x => .val (2 * (1 - norm_cdf |x|))
  | .posInf => .val 0
  | .negInf => .val 0
  | .nan => .nan

/-- IEEE comparison of a float cell against a finite threshold: a NaN
compares false. -/
def rfloat_lt (v : RFloat) (c : ℚ) : Prop :=
  match v with
  | .val x => x < (c : ℝ)
  | .posInf => False
  | .negInf => True
  | .nan => False

/-- The significance filter of src/backend/causal_engine.py line 195: a
task is kept in the significant output exactly when its p-value compares
strictly below P_VALUE_THRESHOLD. -/
def significant (norm_cdf : ℝ → ℝ) (f : FinalEffect) : Prop :=
  rfloat_lt (p_value norm_cdf f) P_VALUE_THRESHOLD

/-- One row of the placebo panel of src/validation.py lines 13-40: task
id, stratum key, backward-looking gain and its 0/1 improvement
indicator. -/
structure PRow where
  id_of_submission_task : String
  key : ℤ × ℤ × ℤ
  placebo_gain : ℚ
  placebo_improved : ℚ
deriving DecidableEq

/-- One row of the baseline_placebo frame after the group_by of
src/validation.py lines 43-49: per stratum mean placebo gain and mean
improvement indicator. -/
structure BPRow where
  key : ℤ × ℤ × ℤ
  baseline_placebo_gain : ℚ
  baseline_placebo_improve_prob : ℚ
deriving DecidableEq

/-- The baseline_placebo frame of src/validation.py lines 43-49: one
aggregated row per stratum key occurring in the panel. -/
def baseline_placebo (rs : List PRow) : List BPRow :=
  ((rs.map (fun r => r.key)).dedup).map (fun k =>
    { key := k,
      baseline_placebo_gain :=
        list_mean ((rs.filter (fun r => r.key = k)).map (fun r => r.placebo_gain)),
      baseline_placebo_improve_prob :=
        list_mean ((rs.filter (fun r => r.key = k)).map (fun r => r.placebo_improved)) })

/-- The baseline_count column of src/validation.py lines 51-52:
pl.count().over(stratum key) evaluated on the already aggregated
baseline_placebo frame, i.e. the number of rows of that frame sharing
the key. -/
def baseline_count (brs : List BPRow) (k : ℤ × ℤ × ℤ) : ℕ :=
  (brs.filter (fun b => b.key = k)).length

/-- The filtered baseline_placebo frame of src/validation.py lines
51-55: rows whose baseline_count is at least 20. -/
def baseline_placebo_filtered (rs : List PRow) : List BPRow :=
  (baseline_placebo rs).filter (fun b => 20 ≤ baseline_count (baseline_placebo rs) b.key)

/-- One row of the treated_placebo frame of src/validation.py lines
58-65: per (task, stratum) mean placebo gain, count, and mean
improvement indicator. -/
structure TPRow where
  id_of_submission_task : String
  key : ℤ × ℤ × ℤ
  treated_placebo_gain : ℚ
  treated_count : ℕ
  treated_placebo_improve_prob : ℚ
deriving DecidableEq

/-- The treated_placebo frame of src/validation.py lines 58-65: one row
per (task, stratum) pair of the panel, kept when its count is at least
20. -/
def treated_placebo (rs : List PRow) : List TPRow :=
  (((rs.map (fun r => (r.id_of_submission_task, r.key))).dedup).map (fun g =>
    ({ id_of_submission_task := g.1, key := g.2,
       treated_placebo_gain := list_mean
         ((rs.filter (fun r => r.id_of_submission_task = g.1 ∧ r.key = g.2)).map
           (fun r => r.placebo_gain)),
       treated_count :=
         (rs.filter (fun r => r.id_of_submission_task = g.1 ∧ r.key = g.2)).length,
       treated_placebo_improve_prob := list_mean
         ((rs.filter (fun r => r.id_of_submission_task = g.1 ∧ r.key = g.2)).map
           (fun r => r.placebo_improved)) } : TPRow))).filter
    (fun t => 20 ≤ t.treated_count)

/-- One row of the bias_df frame of src/validation.py lines 68-85. -/
structure BiasRow where
  id_of_submission_task : String
  key : ℤ × ℤ × ℤ
  treated_placebo_gain : ℚ
  treated_count : ℕ
  treated_placebo_improve_prob : ℚ
  baseline_placebo_gain : ℚ
  baseline_placebo_improve_prob : ℚ
  selection_bias : ℚ
  probability_selection_bias : ℚ
deriving DecidableEq

/-- The bias_df frame of src/validation.py lines 68-85: the inner join
of treated_placebo with the filtered baseline_placebo on the stratum
key, with selection_bias and probability_selection_bias columns, capped
at a selection-bias magnitude of 300. -/
def bias_df (rs : List PRow) : List BiasRow :=
  ((treated_placebo rs).flatMap (fun t =>
    ((baseline_placebo_filtered rs).filter (fun b => b.key = t.key)).map (fun b =>
      ({ id_of_submission_task := t.id_of_submission_task, key := t.key,
         treated_placebo_gain := t.treated_placebo_gain,
         treated_count := t.treated_count,
         treated_placebo_improve_prob := t.treated_placebo_improve_prob,
         baseline_placebo_gain := b.baseline_placebo_gain,
         baseline_placebo_improve_prob := b.baseline_placebo_improve_prob,
         selection_bias := t.treated_placebo_gain - b.baseline_placebo_gain,
         probability_selection_bias :=
           t.treated_placebo_improve_prob - b.baseline_placebo_improve_prob } : BiasRow)))).filter
    (fun r => |r.selection_bias| ≤ 300)

/-- One row of the aggregated_bias frame of src/validation.py lines
88-96, the per-task BiasRecord. -/
structure BiasRecord where
  id_of_submission_task : String
  bias_score : ℚ
  probability_bias_score : ℚ
  total_samples : ℕ
deriving DecidableEq

/-- The aggregated_bias frame of src/validation.py lines 88-96: one
count-weighted BiasRecord per task occurring in bias_df. -/
def aggregated_bias (rs : List PRow) : List BiasRecord :=
  (((bias_df rs).map (fun r => r.id_of_submission_task)).dedup).map (fun p =>
    { id_of_submission_task := p,
      bias_score :=
        (((bias_df rs).filter (fun r => r.id_of_submission_task = p)).map
          (fun r => r.selection_bias * (r.treated_count : ℚ))).sum
        / (((bias_df rs).filter (fun r => r.id_of_submission_task = p)).map
          (fun r => (r.treated_count : ℚ))).sum,
      probability_bias_score :=
        (((bias_df rs).filter (fun r => r.id_of_submission_task = p)).map
          (fun r => r.probability_selection_bias * (r.treated_count : ℚ))).sum
        / (((bias_df rs).filter (fun r => r.id_of_submission_task = p)).map
          (fun r => (r.treated_count : ℚ))).sum,
      total_samples :=
        (((bias_df rs).filter (fun r => r.id_of_submission_task = p)).map
          (fun r => r.treated_count)).sum })

/-- Dividing each mapped value by a common denominator divides the sum. -/
theorem list_sum_map_div {α : Type} (l : List α) (g : α → ℚ) (d : ℚ) :
    (l.map (fun r => g r / d)).sum = (l.map g).sum / d := by
  induction l with
  | nil => simp
  | cons a t ih => simp [add_div, ih]

/-- Casting the total treated count to the rationals gives the sum of the
cast per-stratum counts. -/
theorem total_treated_samples_cast (rs : List ERec) (p : String) :
    ((total_treated_samples rs p : ℕ) : ℚ)
      = ((rows_for rs p).map (fun r => (r.treated_count : ℚ))).sum := by
  unfold total_treated_samples
  rw [Nat.cast_list_sum, List.map_map]
  rfl

/-- Every row surviving in effect_df came from a treatment row that passed
the treated_count at least 10 pre-filter of src/backend/causal_engine.py
line 82. -/
theorem effect_df_treated_count_ten {m : ℕ} {ts : List TStat} {bs : List BStat} {r : ERec}
    (h : r ∈ effect_df m ts bs) : 10 ≤ r.treated_count := by
  unfold effect_df at h
  simp only [List.mem_filter, List.mem_flatMap, List.mem_map, decide_eq_true_eq] at h
  obtain ⟨⟨⟨t, ht, b, _, rfl⟩, -⟩, -⟩ := h
  exact ht.2

/-- C7: every record of the per-(task, stratum) effect table satisfies
the sanity cap: its uplift magnitude is at most 300 rating points
(src/backend/causal_engine.py lines 104-106). -/
theorem effect_df_uplift_cap (m : ℕ) (ts : List TStat) (bs : List BStat) (r : ERec)
    (h : r ∈ effect_df m ts bs) : |r.uplift| ≤ 300 := by
  unfold effect_df at h
  simp only [List.mem_filter, decide_eq_true_eq] at h
  exact h.2

/-- One-stratum treatment input used to instantiate the cap theorem. -/
def ts_cap : List TStat :=
  [{ id_of_submission_task := "W", key := (0, 0, 0), treated_gain := 60,
     treated_std := 40, treated_count := 100, treated_improve_prob := 0 }]

/-- One-stratum baseline input used to instantiate the cap theorem. -/
def bs_cap : List BStat :=
  [{ key := (0, 0, 0), baseline_gain := 20, baseline_std := 50,
     baseline_count := 1000, baseline_improve_prob := 0 }]

/-- The record the cap-theorem instantiation exhibits in effect_df. -/
def r_cap : ERec :=
  { id_of_submission_task := "W", key := (0, 0, 0),
    treated_gain := 60, treated_std := 40, treated_count := 100,
    treated_improve_prob := 0, baseline_gain := 20, baseline_std := 50,
    baseline_count := 1000, baseline_improve_prob := 0,
    uplift := 40, bucket_variance := 37/2, probability_uplift := 0 }

/-- Concrete instantiation of the cap theorem: a record surviving the
pipeline on a one-stratum input satisfies the cap. -/
theorem effect_df_uplift_cap_witness :
    r_cap ∈ effect_df 50 ts_cap bs_cap ∧ |r_cap.uplift| ≤ 300 :=
  ⟨by decide, effect_df_uplift_cap 50 ts_cap bs_cap r_cap (by decide)⟩

/-- C5: for every task with at least one surviving stratum, the stratum
weights treated_count / total_treated_samples sum to exactly 1
(src/backend/causal_engine.py lines 125-132). -/
theorem att_weights_sum_to_one (m : ℕ) (ts : List TStat) (bs : List BStat) (p : String)
    (h : ∃ r ∈ effect_df m ts bs, r.id_of_submission_task = p) :
    ((rows_for (effect_df m ts bs) p).map (weight (effect_df m ts bs) p)).sum = 1 := by
  obtain ⟨r, hr, hrp⟩ := h
  have hmem : r ∈ rows_for (effect_df m ts bs) p := by
    unfold rows_for
    simp only [List.mem_filter, decide_eq_true_eq]
    exact ⟨hr, hrp⟩
  have hten : 10 ≤ r.treated_count := effect_df_treated_count_ten hr
  have hTpos : 0 < total_treated_samples (effect_df m ts bs) p := by
    have hmm : r.treated_count
        ∈ (rows_for (effect_df m ts bs) p).map (fun r => r.treated_count) :=
      List.mem_map_of_mem _ hmem
    have hle := List.single_le_sum (fun (a : ℕ) _ => Nat.zero_le a) _ hmm
    unfold total_treated_samples
    omega
  have hT : ((total_treated_samples (effect_df m ts bs) p : ℕ) : ℚ) ≠ 0 := by
    exact_mod_cast Nat.pos_iff_ne_zero.mp hTpos
  unfold weight
  rw [list_sum_map_div, ← total_treated_samples_cast]
  exact div_self hT

/-- One-stratum treatment input used to instantiate weight
normalization. -/
def ts_norm : List TStat :=
  [{ id_of_submission_task := "N", key := (0, 0, 0), treated_gain := 30,
     treated_std := 10, treated_count := 60, treated_improve_prob := 0 }]

/-- One-stratum baseline input used to instantiate weight
normalization. -/
def bs_norm : List BStat :=
  [{ key := (0, 0, 0), baseline_gain := 10, baseline_std := 20,
     baseline_count := 500, baseline_improve_prob := 0 }]

/-- Concrete instantiation of the weight-normalization theorem on a
surviving one-stratum task. -/
theorem att_weights_sum_to_one_witness :
    (∃ r ∈ effect_df 50 ts_norm bs_norm, r.id_of_submission_task = "N")
    ∧ ((rows_for (effect_df 50 ts_norm bs_norm) "N").map
        (weight (effect_df 50 ts_norm bs_norm) "N")).sum = 1 :=
  ⟨by decide, att_weights_sum_to_one 50 ts_norm bs_norm "N" (by decide)⟩

/-- Projecting the task id out of an aggregated row returns the grouping
key. -/
theorem final_for_id (rs : List ERec) (p : String) :
    (final_for rs p).id_of_submission_task = p := rfl

/-- C6: a task none of whose (task, stratum) groups survives the
sample-count, join and sanity-cap filters is entirely absent from the
per-task ATT table (src/backend/causal_engine.py lines 86-106 and
134-149): the group_by emits one row per task id present in effect_df
and nothing else. -/
theorem no_surviving_strata_absent (m : ℕ) (ts : List TStat) (bs : List BStat) (p : String)
    (h : ∀ r ∈ effect_df m ts bs, r.id_of_submission_task ≠ p) :
    p ∉ (final_effects (effect_df m ts bs)).map (fun f => f.id_of_submission_task) := by
  intro hp
  unfold final_effects at hp
  rw [List.map_map] at hp
  obtain ⟨q, hq, hqp⟩ := List.mem_map.mp hp
  have hq2 : q = p := hqp
  subst hq2
  rw [List.mem_dedup] at hq
  obtain ⟨r, hr, hrq⟩ := List.mem_map.mp hq
  exact h r hr hrq

/-- Treatment input whose only stratum fails the min_samples re-filter
(treated_count 30 passes the pre-filter of 10 but not the joined filter
of 50). -/
def ts_below : List TStat :=
  [{ id_of_submission_task := "Q", key := (0, 0, 0), treated_gain := 5,
     treated_std := 1, treated_count := 30, treated_improve_prob := 0 }]

/-- Baseline input matching the stratum of ts_below. -/
def bs_below : List BStat :=
  [{ key := (0, 0, 0), baseline_gain := 0, baseline_std := 1,
     baseline_count := 1000, baseline_improve_prob := 0 }]

/-- Concrete instantiation of the absence theorem: a task whose only
stratum is under-sampled never reaches the ATT table. -/
theorem no_surviving_strata_absent_witness :
    (∀ r ∈ effect_df 50 ts_below bs_below, r.id_of_submission_task ≠ "Q")
    ∧ "Q" ∉ (final_effects (effect_df 50 ts_below bs_below)).map
        (fun f => f.id_of_submission_task) :=
  ⟨by decide, no_surviving_strata_absent 50 ts_below bs_below "Q" (by decide)⟩

/-- C10: the count-weighted probability aggregate of
src/backend/causal_engine.py lines 146-147 coincides exactly with the
sample-proportional weighting used for the ATT score on the surviving
strata of any task present in the output. -/
theorem att_probability_weighting_eq (m : ℕ) (ts : List TStat) (bs : List BStat) (p : String)
    (_h : ∃ r ∈ effect_df m ts bs, r.id_of_submission_task = p) :
    (final_for (effect_df m ts bs) p).att_probability_uplift
      = ((rows_for (effect_df m ts bs) p).map
          (fun r => weight (effect_df m ts bs) p r * r.probability_uplift)).sum := by
  have hcongr : ((rows_for (effect_df m ts bs) p).map
      (fun r => weight (effect_df m ts bs) p r * r.probability_uplift))
      = ((rows_for (effect_df m ts bs) p).map
        (fun r => (r.probability_uplift * (r.treated_count : ℚ))
          / ((total_treated_samples (effect_df m ts bs) p : ℕ) : ℚ))) := by
    apply List.map_congr_left
    intro r _
    unfold weight
    ring
  rw [hcongr, list_sum_map_div, total_treated_samples_cast]
  rfl

/-- Two-strata treatment input used to instantiate the probability
weighting equality. -/
def ts_prob : List TStat :=
  [{ id_of_submission_task := "R", key := (0, 0, 0), treated_gain := 30,
     treated_std := 10, treated_count := 60, treated_improve_prob := 1/2 },
   { id_of_submission_task := "R", key := (1, 0, 0), treated_gain := 10,
     treated_std := 10, treated_count := 90, treated_improve_prob := 1/4 }]

/-- Two-strata baseline input used to instantiate the probability
weighting equality. -/
def bs_prob : List BStat :=
  [{ key := (0, 0, 0), baseline_gain := 10, baseline_std := 20,
     baseline_count := 500, baseline_improve_prob := 1/3 },
   { key := (1, 0, 0), baseline_gain := 5, baseline_std := 20,
     baseline_count := 400, baseline_improve_prob := 1/5 }]

/-- Concrete instantiation of the probability weighting equality on a
two-strata task. -/
theorem att_probability_weighting_eq_witness :
    (∃ r ∈ effect_df 50 ts_prob bs_prob, r.id_of_submission_task = "R")
    ∧ (final_for (effect_df 50 ts_prob bs_prob) "R").att_probability_uplift
      = ((rows_for (effect_df 50 ts_prob bs_prob) "R").map
          (fun r => weight (effect_df 50 ts_prob bs_prob) "R" r * r.probability_uplift)).sum :=
  ⟨by decide, att_probability_weighting_eq 50 ts_prob bs_prob "R" (by decide)⟩

/-- Treatment input producing a surviving task with zero aggregate
variance: a single stratum whose gains have zero spread. -/
def ts_degenerate : List TStat :=
  [{ id_of_submission_task := "D", key := (0, 0, 0), treated_gain := 40,
     treated_std := 0, treated_count := 50, treated_improve_prob := 0 }]

/-- Baseline input for the zero-variance task, also with zero spread. -/
def bs_degenerate : List BStat :=
  [{ key := (0, 0, 0), baseline_gain := 0, baseline_std := 0,
     baseline_count := 1000, baseline_improve_prob := 0 }]

/-- The aggregated row of the zero-variance task. -/
def f_degenerate : FinalEffect := final_for (effect_df 50 ts_degenerate bs_degenerate) "D"

/-- C2 (code behaviour at the degenerate input): a task whose aggregate
variance is zero is NOT excluded from the significant output.  Its
standard error is 0, the float division of src/backend/causal_engine.py
line 179 produces an infinite z-score, the normal CDF of the library at
infinity is exactly 1, the p-value is exactly 0, and the significance
filter of line 195 retains the task no matter which CDF is used for
finite arguments. -/
theorem degenerate_variance_task_retained :
    ∀ norm_cdf : ℝ → ℝ,
      "D" ∈ (final_effects (effect_df 50 ts_degenerate bs_degenerate)).map
          (fun f => f.id_of_submission_task)
      ∧ f_degenerate.att_score = 40
      ∧ f_degenerate.att_variance = 0
      ∧ z_score f_degenerate = RFloat.posInf
      ∧ significant norm_cdf f_degenerate := by
  intro norm_cdf
  have hatt : f_degenerate.att_score = 40 := by decide
  have hvar : f_degenerate.att_variance = 0 := by decide
  have hz : z_score f_degenerate = RFloat.posInf := by
    unfold z_score
    rw [hatt, hvar]
    norm_num
  refine ⟨by decide, hatt, hvar, hz, ?_⟩
  unfold significant p_value
  rw [hz]
  show (0:ℝ) < ((P_VALUE_THRESHOLD : ℚ) : ℝ)
  norm_num [P_VALUE_THRESHOLD]

/-- Treatment input of the worked scenario: task P, stratum A with
treated_count 100, gain 60, std 40; stratum B with treated_count 50,
gain 30, std 30. -/
def ts_worked : List TStat :=
  [{ id_of_submission_task := "P", key := (15, 5, 5), treated_gain := 60,
     treated_std := 40, treated_count := 100, treated_improve_prob := 0 },
   { id_of_submission_task := "P", key := (16, 5, 5), treated_gain := 30,
     treated_std := 30, treated_count := 50, treated_improve_prob := 0 }]

/-- Baseline input of the worked scenario: stratum A with count 1000,
gain 20, std 50; stratum B with count 500, gain 10, std 45. -/
def bs_worked : List BStat :=
  [{ key := (15, 5, 5), baseline_gain := 20, baseline_std := 50,
     baseline_count := 1000, baseline_improve_prob := 0 },
   { key := (16, 5, 5), baseline_gain := 10, baseline_std := 45,
     baseline_count := 500, baseline_improve_prob := 0 }]

/-- The effect records of the worked scenario. -/
def rs_worked : List ERec := effect_df 50 ts_worked bs_worked

/-- The aggregated row of the worked scenario task. -/
def f_worked : FinalEffect := final_for rs_worked "P"

/-- C1 (worked scenario): on the two-strata input the pipeline produces
weights 2/3 and 1/3, uplifts 40 and 20, bucket variances 18.5 and 22.05,
ATT 100/3, aggregate variance 1921/180, a standard error strictly
between 3.26 and 3.27, a z-score strictly between 10.2 and 10.21, and
the task is retained as significant for every monotone normal CDF whose
value at 2.6 exceeds 0.995 (the standard normal CDF satisfies this:
its value at 2.6 is about 0.99534). -/
theorem worked_scenario (norm_cdf : ℝ → ℝ) (hmono : Monotone norm_cdf)
    (hval : (199:ℝ)/200 < norm_cdf (13/5)) :
    ((rows_for rs_worked "P").map (weight rs_worked "P") = [2/3, 1/3])
    ∧ ((rows_for rs_worked "P").map (fun r => r.uplift) = [40, 20])
    ∧ ((rows_for rs_worked "P").map (fun r => r.bucket_variance) = [37/2, 441/20])
    ∧ f_worked.att_score = 100/3
    ∧ f_worked.att_variance = 1921/180
    ∧ (163/50 < att_std_err f_worked ∧ att_std_err f_worked < 327/100)
    ∧ (∃ z : ℝ, z_score f_worked = RFloat.val z ∧ 51/5 < z ∧ z < 1021/100)
    ∧ significant norm_cdf f_worked := by
  have hw : (rows_for rs_worked "P").map (weight rs_worked "P") = [2/3, 1/3] := by decide
  have hu : (rows_for rs_worked "P").map (fun r => r.uplift) = [40, 20] := by decide
  have hbv : (rows_for rs_worked "P").map (fun r => r.bucket_variance) = [37/2, 441/20] := by
    decide
  have hatt : f_worked.att_score = 100/3 := by decide
  have hvar : f_worked.att_variance = 1921/180 := by decide
  have hse_def : att_std_err f_worked = Real.sqrt ((1921:ℝ)/180) := by
    unfold att_std_err
    rw [hvar]
    norm_num
  have hse_lo : (163:ℝ)/50 < att_std_err f_worked := by
    rw [hse_def]
    rw [show (163:ℝ)/50 = ((163:ℝ)/50) from rfl]
    refine (Real.lt_sqrt (by norm_num)).mpr (by norm_num)
  have hse_hi : att_std_err f_worked < (327:ℝ)/100 := by
    rw [hse_def]
    refine (Real.sqrt_lt' (by norm_num)).mpr (by norm_num)
  have hse_hi2 : att_std_err f_worked < (500:ℝ)/153 := by
    rw [hse_def]
    refine (Real.sqrt_lt' (by norm_num)).mpr (by norm_num)
  have hse_lo2 : (10000:ℝ)/3063 < att_std_err f_worked := by
    rw [hse_def]
    refine (Real.lt_sqrt (by norm_num)).mpr (by norm_num)
  have hse_pos : (0:ℝ) < att_std_err f_worked := by linarith
  have hz_def : z_score f_worked
      = RFloat.val (((100:ℝ)/3) / att_std_err f_worked) := by
    unfold z_score
    rw [hatt, hvar]
    norm_num
  have hz_lo : (51:ℝ)/5 < ((100:ℝ)/3) / att_std_err f_worked := by
    rw [lt_div_iff₀ hse_pos]
    nlinarith [hse_hi2, hse_pos]
  have hz_hi : ((100:ℝ)/3) / att_std_err f_worked < (1021:ℝ)/100 := by
    rw [div_lt_iff₀ hse_pos]
    nlinarith [hse_lo2, hse_pos]
  refine ⟨hw, hu, hbv, hatt, hvar, ⟨hse_lo, hse_hi⟩,
    ⟨((100:ℝ)/3) / att_std_err f_worked, hz_def, hz_lo, hz_hi⟩, ?_⟩
  unfold significant p_value
  rw [hz_def]
  show 2 * (1 - norm_cdf |((100:ℝ)/3) / att_std_err f_worked|) < ((P_VALUE_THRESHOLD : ℚ) : ℝ)
  have habs : |((100:ℝ)/3) / att_std_err f_worked| = ((100:ℝ)/3) / att_std_err f_worked := by
    refine abs_of_pos (by positivity)
  rw [habs]
  have hmon : norm_cdf (13/5) ≤ norm_cdf (((100:ℝ)/3) / att_std_err f_worked) := by
    refine hmono (by linarith)
  have : ((P_VALUE_THRESHOLD : ℚ) : ℝ) = 1/100 := by
    norm_num [P_VALUE_THRESHOLD]
  rw [this]
  linarith

/-- Concrete instantiation of the worked scenario: with the constant
function 1 in place of the normal CDF (which is monotone and exceeds
0.995 at 2.6) the task is retained. -/
theorem worked_scenario_witness : significant (fun _ : ℝ => 1) f_worked :=
  (worked_scenario (fun _ : ℝ => 1) monotone_const (by norm_num)).2.2.2.2.2.2.2

/-- C3 (amended): membership of a derived row in the treatment group of
a (task, stratum) pair is determined by the task id and stratum key
alone; the verdict of the submission plays no role, so attempts with any
verdict contribute (src/backend/causal_engine.py lines 71-79, with
src/backend/data_loader.py performing no verdict filter). -/
theorem treatment_group_iff_task_and_stratum (es : List Event) (p : String)
    (k : ℤ × ℤ × ℤ) (r : SRow) (h : r ∈ outcome_rows es) :
    r ∈ treatment_group es p k
      ↔ (r.id_of_submission_task = p ∧ (r.bin_rating, r.bin_acc, r.bin_diff) = k) := by
  constructor
  · intro hm
    exact of_decide_eq_true (List.mem_filter.mp hm).2
  · intro hc
    exact List.mem_filter.mpr ⟨h, decide_eq_true hc⟩

/-- Panel with a single user whose first submission is a rejected
attempt at task P, followed by 20 accepted submissions of another task:
the rejected attempt is the only event with a 20-later successor, so it
is the only derived row. -/
def events_attempted : List Event :=
  { handle := "u", time := 0, id_of_submission_task := "P",
    verdict := "WRONG_ANSWER", rating_at_submission := 1500,
    roll_acc_20 := 1/2, roll_ok_diff_20 := .val 1000 }
  :: (List.range 20).map (fun i =>
    { handle := "u", time := (i : ℤ) + 1, id_of_submission_task := "X",
      verdict := "OK", rating_at_submission := 1500,
      roll_acc_20 := 1/2, roll_ok_diff_20 := .val 1000 })

/-- Counterexample to C3 as stated: the treatment group of task P in
stratum (15, 5, 5) on the panel above consists of exactly one row, and
that row is a submission with verdict WRONG_ANSWER, i.e. an event in
which the task was merely attempted, not completed. -/
theorem treatment_group_includes_unaccepted_attempt :
    (treatment_group events_attempted "P" (15, 5, 5)).length = 1
    ∧ ∃ r ∈ treatment_group events_attempted "P" (15, 5, 5),
        r.verdict = "WRONG_ANSWER" := by decide

/-- The derived row produced by the rejected attempt of the panel
above. -/
def attempted_row : SRow :=
  { handle := "u", time := 0, id_of_submission_task := "P",
    verdict := "WRONG_ANSWER", rating_at_submission := 1500,
    roll_acc_20 := 1/2, roll_ok_diff_20 := .val 1000,
    future_rating_20 := 1500, rating_gain_20 := 0, improved_20 := 0,
    bin_rating := 15, bin_acc := 5, bin_diff := 5 }

/-- Concrete instantiation of the amended membership theorem at the
rejected attempt. -/
theorem treatment_group_iff_task_and_stratum_witness :
    attempted_row ∈ outcome_rows events_attempted
    ∧ (attempted_row ∈ treatment_group events_attempted "P" (15, 5, 5)
        ↔ (attempted_row.id_of_submission_task = "P"
            ∧ (attempted_row.bin_rating, attempted_row.bin_acc,
                attempted_row.bin_diff) = (15, 5, 5))) :=
  ⟨by decide,
    treatment_group_iff_task_and_stratum events_attempted "P" (15, 5, 5)
      attempted_row (by decide)⟩

/-- The stratum keys of the aggregated baseline_placebo frame are the
distinct keys of the panel. -/
theorem baseline_placebo_keys (rs : List PRow) :
    (baseline_placebo rs).map (fun b => b.key) = (rs.map (fun r => r.key)).dedup := by
  unfold baseline_placebo
  rw [List.map_map]
  exact (List.map_congr_left fun k _ => rfl).trans (List.map_id' _)

/-- A list without duplicates holds any value at most once. -/
theorem countP_eq_self_le_one {l : List (ℤ × ℤ × ℤ)} (hl : l.Nodup) (k : ℤ × ℤ × ℤ) :
    l.countP (fun x => x = k) ≤ 1 := by
  induction l with
  | nil => simp
  | cons a t ih =>
    rw [List.countP_cons]
    rcases List.nodup_cons.mp hl with ⟨ha, ht⟩
    by_cases hak : a = k
    · subst hak
      have hz : t.countP (fun x => x = a) = 0 := by
        apply List.countP_eq_zero.mpr
        intro x hx
        simp only [decide_eq_true_eq]
        intro hxa
        exact ha (hxa ▸ hx)
      simp [hz]
    · rw [if_neg (by simp [hak])]
      simpa using ih ht

/-- Every baseline_count computed by src/validation.py lines 51-52 is at
most 1: the window count runs over the already aggregated frame, which
holds one single row per stratum key. -/
theorem baseline_count_le_one (rs : List PRow) (k : ℤ × ℤ × ℤ) :
    baseline_count (baseline_placebo rs) k ≤ 1 := by
  unfold baseline_count
  rw [← List.countP_eq_length_filter]
  have h1 : (baseline_placebo rs).countP (fun b => b.key = k)
      = ((baseline_placebo rs).map (fun b => b.key)).countP (fun x => x = k) := by
    rw [List.countP_map]
    rfl
  rw [h1, baseline_placebo_keys]
  exact countP_eq_self_le_one (List.nodup_dedup _) k

/-- The filter of src/validation.py lines 53-55 removes every row of the
aggregated baseline frame, because each row's window count is 1 and the
threshold is 20. -/
theorem baseline_placebo_filtered_nil (rs : List PRow) :
    baseline_placebo_filtered rs = [] := by
  unfold baseline_placebo_filtered
  apply List.filter_eq_nil_iff.mpr
  intro b _
  have h1 := baseline_count_le_one rs b.key
  simp only [decide_eq_true_eq]
  omega

/-- C4 (code behaviour): the placebo validator never emits a BiasRecord.
The baseline_count column is computed after the group_by, so it is 1 on
every aggregated baseline row, the at-least-20 filter empties the
baseline table, the inner join leaves bias_df empty, and the persisted
aggregated_bias table is empty for every input panel. -/
theorem placebo_validator_emits_no_bias_records :
    ∀ rs : List PRow,
      baseline_placebo_filtered rs = [] ∧ bias_df rs = [] ∧ aggregated_bias rs = [] := by
  intro rs
  have h1 := baseline_placebo_filtered_nil rs
  have h2 : bias_df rs = [] := by
    unfold bias_df
    rw [h1]
    simp
  have h3 : aggregated_bias rs = [] := by
    unfold aggregated_bias
    rw [h2]
    simp
  exact ⟨h1, h2, h3⟩
